import Mathlib

/-!
Verification of the clusterfuzz-tools reproduction pipeline.

Shallow embedding of `clusterfuzz/commands/reproduce.py` and of the
`common` / `binary_providers` modules (the latter two are present in the
repository only through their test suites; their operations are modelled
from the specification, faithful to its words, and checked against the
behaviour the tests pin down).
-/

namespace Clusterfuzz

set_option maxRecDepth 10000

/-! ## Authenticated fetch (`send_request`, reproduce.py lines 49-68) -/

/-- An HTTP response as `send_request` observes it: a status code, a body,
and the value of the `x-clusterfuzz-authorization` response header. -/
structure Response where
  status : Nat
  body : String
  authHeaderValue : String
deriving Repr, DecidableEq

/-- The environment `send_request` runs in: the token currently stored on
disk (`common.get_stored_auth_header`), the header produced by the i-th
call to `get_verification_header`, and the response the server gives to
the i-th request issued with a given `Authorization` header value. -/
structure FetchEnv where
  storedHeader : Option String
  verificationHeader : Nat → String
  fetchResponse : Nat → String → Response

/-- The loop state of `send_request`: the Python locals `header` and
`response`, plus instrumentation recording the header of every request
issued so far and how many challenge cycles have run. -/
structure LoopState where
  header : Option String
  response : Option Response
  requestHeaders : List String
  challengeCount : Nat

/-- Python truthiness of the `header` local: `not header` holds for
`None` and for the empty string. -/
def tokenFalsy : Option String → Bool
  | none => true
  | some s => s == ""

/-- The condition `not header or (response and response.status == 401)`
guarding the challenge flow inside the loop body. -/
def needsNewHeader (s : LoopState) : Bool :=
  tokenFalsy s.header ||
    (match s.response with
     | some r => r.status == 401
     | none => false)

/-- One execution of the loop body of `send_request`: possibly obtain a
new verification header, then issue the request. -/
def sendRequestBody (env : FetchEnv) (s : LoopState) : LoopState :=
  let header :=
    if needsNewHeader s then env.verificationHeader s.challengeCount
    else s.header.getD ""
  let challengeCount :=
    if needsNewHeader s then s.challengeCount + 1 else s.challengeCount
  let response := env.fetchResponse s.requestHeaders.length header
  { header := some header
    response := some response
    requestHeaders := s.requestHeaders ++ [header]
    challengeCount := challengeCount }

/-- One iteration of `for _ in range(2)`: the body runs unless a previous
iteration already hit `break` (a stored response with status 200). -/
def sendRequestStep (env : FetchEnv) (s : LoopState) : LoopState :=
  match s.response with
  | some r => if r.status == 200 then s else sendRequestBody env s
  | none => sendRequestBody env s

/-- The pipeline error raised on exhausted authentication, carrying the
final response body (`common.ClusterfuzzAuthError`). -/
inductive CFError where
  | clusterfuzzAuthError (body : String)
  | permissionsTooPermissiveError (message : String)
deriving Repr, DecidableEq

/-- The observable outcome of `send_request`: the headers of the requests
issued (in order), the number of challenge cycles run, the returned
response or the raised error, and the token stored on disk afterwards. -/
structure SendOutcome where
  requestHeaders : List String
  challengeCount : Nat
  result : Except CFError Response
  storedAfter : Option String
deriving Repr

/-- `send_request(url)` of reproduce.py: read the stored header, run the
two-round loop, raise `ClusterfuzzAuthError(response.body)` unless the
final status is 200, otherwise persist the response's
`x-clusterfuzz-authorization` header and return the response. -/
def send_request (env : FetchEnv) : SendOutcome :=
  let s0 : LoopState :=
    { header := env.storedHeader
      response := none
      requestHeaders := []
      challengeCount := 0 }
  let s := sendRequestStep env (sendRequestStep env s0)
  match s.response with
  | some r =>
    if r.status == 200 then
      { requestHeaders := s.requestHeaders
        challengeCount := s.challengeCount
        result := .ok r
        storedAfter := some r.authHeaderValue }
    else
      { requestHeaders := s.requestHeaders
        challengeCount := s.challengeCount
        result := .error (.clusterfuzzAuthError r.body)
        storedAfter := env.storedHeader }
  | none =>
    { requestHeaders := []
      challengeCount := 0
      result := .error (.clusterfuzzAuthError "")
      storedAfter := env.storedHeader }

/-- The header used for the first request: the stored one, or the result
of the first challenge when nothing (or an empty token) is stored. -/
def firstHeader (env : FetchEnv) : String :=
  if tokenFalsy env.storedHeader then env.verificationHeader 0
  else env.storedHeader.getD ""

/-- Number of challenge cycles that run before the first request. -/
def firstChallenges (env : FetchEnv) : Nat :=
  if tokenFalsy env.storedHeader then 1 else 0

/-- The response to the first request. -/
def firstResponse (env : FetchEnv) : Response :=
  env.fetchResponse 0 (firstHeader env)

/-- Whether the second loop iteration re-enters the challenge flow: the
header it holds is falsy (an empty verification header) or the first
response was a 401. -/
def secondNeedsChallenge (env : FetchEnv) : Bool :=
  firstHeader env == "" || (firstResponse env).status == 401

/-- The header used for the second request (when one is issued). -/
def secondHeader (env : FetchEnv) : String :=
  if secondNeedsChallenge env then
    env.verificationHeader (firstChallenges env)
  else firstHeader env

/-- The response to the second request (when one is issued). -/
def secondResponse (env : FetchEnv) : Response :=
  env.fetchResponse 1 (secondHeader env)

/-- A concrete environment for `send_request`: a token is stored, the
first request is answered 401, the second 200. -/
def envC1 : FetchEnv :=
  { storedHeader := some "Bearer stale"
    verificationHeader := fun _ => "VerificationCode 42"
    fetchResponse := fun i _ =>
      if i = 0 then { status := 401, body := "unauthorized", authHeaderValue := "" }
      else { status := 200, body := "body ok", authHeaderValue := "Bearer fresh" } }

/-! ## `common.confirm`, `common.check_confirm`

Modelled from the spec (common.py is present in the repository only
through its tests): interactive confirmation with an optional default
answer, looping until an accepted answer is given; `check_confirm`
treats a declined confirmation as a process exit. -/

/-- Modelled from the spec: `common.confirm(question, default)` reads
answers from the user until one is accepted. An answer is accepted when
it is "y", "n", or, when a default is set, the empty string (bare
Enter), which then stands for the default. The result is the pair
(boolean answer, number of prompts issued); `none` means the input
stream ran out without an accepted answer (the real loop re-prompts
unboundedly). -/
def confirmLoop (default : Option String) : List String → Option (Bool × Nat)
  | [] => none
  | a :: rest =>
    if a = "y" then some (true, 1)
    else if a = "n" then some (false, 1)
    else if a = "" ∧ default.isSome then some (default == some "y", 1)
    else (confirmLoop default rest).map (fun p => (p.1, p.2 + 1))

/-- `common.confirm` with its default argument `default='y'`. -/
def confirm (inputs : List String) : Option (Bool × Nat) :=
  confirmLoop (some "y") inputs

/-- Whether a run of a pipeline step finished normally or ended the
whole process (`sys.exit`). -/
inductive RunOutcome where
  | completed
  | exited
deriving Repr, DecidableEq

/-- Modelled from the spec: `common.check_confirm(question)` asks
`confirm` with the default default and exits the process when the user
declines. -/
def check_confirm (answer : Bool) : RunOutcome :=
  if answer then .completed else .exited

/-! ## Checkout by commit (`checkout_source_by_sha`)

Modelled from the spec (binary_providers.py is present only through its
tests): read the current commit with the read-only `git rev-parse HEAD`,
skip when it already equals the resolved target, otherwise confirm and,
only on acceptance, run the single mutating fetch-and-checkout
command. -/

/-- The observable trace of one `checkout_source_by_sha` run: the
read-only commands issued, the number of confirmation prompts, the
mutating commands issued (each as command text paired with its working
directory), and whether the run completed or exited. -/
structure CheckoutResult where
  readCommands : List (String × String)
  prompts : Nat
  mutatingCommands : List (String × String)
  outcome : RunOutcome
deriving Repr, DecidableEq

/-- Modelled from the spec: `checkout_source_by_sha` on a source tree
whose current commit is `currentSha`, targeting `gitSha`, with the user
answering the (single, optional) confirmation by `confirmAnswer`. -/
def checkout_source_by_sha (currentSha gitSha sourceDir : String)
    (confirmAnswer : Bool) : CheckoutResult :=
  if currentSha = gitSha then
    { readCommands := [("git rev-parse HEAD", sourceDir)]
      prompts := 0
      mutatingCommands := []
      outcome := .completed }
  else
    match check_confirm confirmAnswer with
    | .exited =>
      { readCommands := [("git rev-parse HEAD", sourceDir)]
        prompts := 1
        mutatingCommands := []
        outcome := .exited }
    | .completed =>
      { readCommands := [("git rev-parse HEAD", sourceDir)]
        prompts := 1
        mutatingCommands := [("git fetch && git checkout " ++ gitSha, sourceDir)]
        outcome := .completed }

/-! ## Reproduction runner (`reproduce_crash`, reproduce.py lines 91-97) -/

/-- `os.path.dirname` for POSIX paths, as posixpath implements it: the
part of the path up to and including the final '/', with trailing
slashes stripped unless that head consists only of slashes. -/
def dirname (p : String) : String :=
  let head := (p.toList.reverse.dropWhile (fun c => c ≠ '/')).reverse
  if head.isEmpty ∨ head.all (fun c => c = '/') then String.mk head
  else String.mk ((head.reverse.dropWhile (fun c => c = '/')).reverse)

/-- The crash record fields `reproduce_crash` consumes from
`testcase.Testcase`: the reproduction-argument string, the local
testcase path, and the environment mapping from the crash metadata. -/
structure Testcase where
  reproduction_args : String
  testcase_path : String
  environment : List (String × String)

/-- A recorded `subprocess.Popen` invocation: command text, working
directory and the full process environment handed to the child. -/
structure PopenCall where
  command : String
  cwd : String
  env : String → Option String

/-- The behaviour of the spawned process: its exit status and its
captured output. -/
structure ProcessBehaviour where
  exitCode : Int
  output : String

/-- How a `common.execute` call ends: the (code, output) pair is
returned to the caller, or the whole tool exits (`sys.exit`). -/
inductive ExecResult where
  | returned (code : Int) (output : String)
  | systemExit
deriving Repr, DecidableEq

/-- Modelled from the spec and ExecuteTest (common.py is present only
through its tests): `common.execute(command, cwd, ...)` spawns the
command in `cwd` with the ambient environment extended by the optional
`environment` mapping (its keys override the ambient ones), captures the
output, and — when `exitOnError` is set and the process exits
non-zero — exits the whole tool; otherwise it returns the pair
(exit status, output). -/
def execute (command cwd : String) (exitOnError : Bool)
    (ambientEnv : String → Option String)
    (environment : Option (List (String × String)))
    (proc : ProcessBehaviour) : PopenCall × ExecResult :=
  let env : String → Option String :=
    match environment with
    | none => ambientEnv
    | some extra => fun k => (extra.lookup k).orElse (fun _ => ambientEnv k)
  ({ command := command, cwd := cwd, env := env },
   if exitOnError ∧ proc.exitCode ≠ 0 then .systemExit
   else .returned proc.exitCode proc.output)

/-- `reproduce_crash(binary_path, current_testcase)` of reproduce.py:
builds the command `<binary_path> <reproduction_args> <testcase_path>`
and executes it in the binary's containing directory with the crash
record's environment mapping. Modelled from the spec: the execute call
for the reproduction itself does not exit on a non-zero status — that
status is the expected crash signal and is surfaced to the caller. -/
def reproduce_crash (binary_path : String) (tc : Testcase)
    (ambientEnv : String → Option String) (proc : ProcessBehaviour) :
    PopenCall × ExecResult :=
  let command :=
    binary_path ++ " " ++ tc.reproduction_args ++ " " ++ tc.testcase_path
  execute command (dirname binary_path) false ambientEnv
    (some tc.environment) proc

/-! ## Build-config patching (`setup_gn_args`)

Modelled from the spec (binary_providers.py is present only through its
tests): read whichever pre-existing config file there is, merge its
key=value pairs with the mandatory `goma_dir` key (which takes the
current environment's value, overriding any prior one), run the
project-generation command, and write the merged file into the
BuildDirectory. -/

/-- A side effect of `setup_gn_args`: an external command run in a
working directory, or a config file written as a list of key=value
pairs. -/
inductive GnOp where
  | exec (cmd cwd : String)
  | writeConfig (path : String) (pairs : List (String × String))
deriving Repr, DecidableEq

/-- The merged configuration: every pre-existing pair whose key is not
`goma_dir`, and `goma_dir` bound to the current environment's value. -/
def mergedGnArgs (existing : List (String × String)) (gomaDir : String) :
    List (String × String) :=
  existing.filter (fun kv => kv.1 ≠ "goma_dir") ++ [("goma_dir", gomaDir)]

/-- Modelled from the spec: `setup_gn_args` runs `gn gen <build_directory>`
in the source tree and then writes the merged config to the
BuildDirectory's `args.gn`. -/
def setup_gn_args (existing : List (String × String))
    (gomaDir buildDirectory chromeSource : String) : List GnOp :=
  [.exec ("gn gen " ++ buildDirectory) chromeSource,
   .writeConfig (buildDirectory ++ "/args.gn") (mergedGnArgs existing gomaDir)]

/-! ## Downloaded strategy (`download_build_data`)

Modelled from the spec and DownloadBuildDataTest (binary_providers.py is
present only through its tests): the readiness short-circuit, the
storage-URL translation, and the download / extract / move / delete
sequence. -/

/-- The filesystem facts `download_build_data` can depend on: whether
the BuildDirectory exists, and (separately, for stating the claim's
notion of readiness) whether the binary file exists at its well-known
relative path inside it. -/
structure DlState where
  buildDirExists : Bool
  binaryExists : Bool
deriving Repr, DecidableEq

/-- A side effect of `download_build_data`. -/
inductive DlOp where
  | exec (cmd cwd : String)
  | extractZip (archivePath destDir : String)
  | renameDir (src dst : String)
  | removeFile (path : String)
deriving Repr, DecidableEq

/-- Whether the first character list is an initial segment of the
second. -/
def listHasPre (p s : List Char) : Bool :=
  s.take p.length == p

/-- The storage-URL translation: `https://storage.cloud.google.com/X`
becomes `gs://X`. -/
def gsutilUrl (u : String) : String :=
  let p := "https://storage.cloud.google.com/"
  if listHasPre p.toList u.toList then
    "gs://" ++ String.mk (u.toList.drop p.toList.length)
  else u

/-- The tail segment of a URL or path (`os.path.split(p)[1]`): the part
after the final '/', or the whole string when it has none. -/
def urlTail (u : String) : String :=
  String.mk ((u.toList.reverse.takeWhile (fun c => c ≠ '/')).reverse)

/-- The root of a filename (`os.path.splitext(name)[0]`): everything
before the last dot, or the whole name when it has no dot. -/
def splitextRoot (name : String) : String :=
  let l := name.toList
  if l.contains '.' then
    String.mk (((l.reverse.dropWhile (fun c => c ≠ '.')).drop 1).reverse)
  else name

/-- Modelled from the spec (readiness check as DownloadBuildDataTest
pins it: the BuildDirectory existing short-circuits the download):
`download_build_data` returns the BuildDirectory path, after — when the
directory is absent — copying the translated storage URL into the
staging directory, extracting the archive named by the URL's tail
segment, renaming the single top-level extracted directory to the
BuildDirectory, and deleting the staged archive. -/
def download_build_data (st : DlState)
    (buildUrl stagingDir buildsDir buildDir : String) : List DlOp × String :=
  if st.buildDirExists then ([], buildDir)
  else
    let gs := gsutilUrl buildUrl
    let filename := urlTail gs
    ([.exec ("gsutil cp " ++ gs ++ " .") stagingDir,
      .extractZip (stagingDir ++ "/" ++ filename) buildsDir,
      .renameDir (buildsDir ++ "/" ++ splitextRoot filename) buildDir,
      .removeFile (stagingDir ++ "/" ++ filename)],
     buildDir)

/-- The claim's notion of readiness for a BuildDirectory: the binary
file exists at its well-known relative path inside it. -/
def readyPerClaim (st : DlState) : Bool :=
  st.binaryExists

/-! ## Credential store (`get_stored_auth_header`, `store_auth_header`)

Modelled from the spec (common.py is present only through its tests):
a single credential file at a fixed path, permission-checked on load,
rewritten owner-only on save. -/

/-- The credential file's state: its permission mode bits and its
content. -/
structure CredFile where
  mode : Nat
  content : String
deriving Repr, DecidableEq

/-- The credential store's on-disk state: whether the parent
configuration directory exists, and the credential file if present. -/
structure CredState where
  dirExists : Bool
  file : Option CredFile
deriving Repr, DecidableEq

/-- Group and other permission bits of a mode (`mode & 0o077`). -/
def groupOtherBits (mode : Nat) : Nat :=
  mode % 64

/-- Modelled from the spec: `common.get_stored_auth_header()` returns
`none` when the file is missing, fails with
PermissionsTooPermissiveError when any group or other permission bit is
set, and otherwise returns the stored token. -/
def get_stored_auth_header (file : Option CredFile) :
    Except CFError (Option String) :=
  match file with
  | none => .ok none
  | some f =>
    if groupOtherBits f.mode ≠ 0 then
      .error (.permissionsTooPermissiveError
        "File permissions too permissive to open")
    else .ok (some f.content)

/-- Modelled from the spec: `common.store_auth_header(token)` creates
the parent directory if absent, writes the token, and sets the file
mode to owner-read/write-only (0600), regardless of the prior state. -/
def store_auth_header (_st : CredState) (token : String) : CredState :=
  { dirExists := true, file := some { mode := 0o600, content := token } }

/-! ## Build invocation (`build_target`)

Modelled from the spec and BuildTargetTest (binary_providers.py is
present only through its tests): job parallelism is 10× the available
processor count, and the dependency-hook, project-generation and
compile steps run in that order in the source tree. -/

/-- The job parallelism handed to the compile step. -/
def jobCount (cpuCount : Nat) : Nat :=
  10 * cpuCount

/-- Modelled from the spec: `build_target` issues the dependency-hook
step, the project-generation step and the compile step, in that order,
as three separate external commands, each with the source tree as
working directory; the compile step carries `-j <10 * cpuCount>`. -/
def build_target (cpuCount : Nat) (buildDirectory chromeSource : String) :
    List (String × String) :=
  [("GYP_DEFINES=asan=1 gclient runhooks", chromeSource),
   ("GYP_DEFINES=asan=1 gypfiles/gyp_v8", chromeSource),
   ("ninja -C " ++ buildDirectory ++ " -j " ++ toString (jobCount cpuCount)
      ++ " d8", chromeSource)]

/-! ## Revision resolution (`build_revision_to_sha_url`, `sha_from_revision`)

Modelled from the spec and its tests (binary_providers.py is present
only through its tests): the fixed numbering-service URL with its five
query parameters, and extraction of the `git_sha` field from the JSON
response. -/

/-- URL quoting as it affects the parameter values in play: '/' is
percent-encoded as %2F. -/
def urlquote (s : String) : String :=
  String.mk (s.toList.foldr
    (fun c acc => if c = '/' then '%' :: '2' :: 'F' :: acc else c :: acc) [])

/-- Modelled from the spec: the numbering-service query URL with
parameters project=chromium, repo=<repoPath>, number=<revision>,
numbering_type=COMMIT_POSITION, numbering_identifier=refs/heads/master,
values URL-quoted. -/
def build_revision_to_sha_url (revision : Nat) (repoName : String) : String :=
  "https://cr-rev.appspot.com/_ah/api/crrev/v1/get_numbering?project=chromium"
    ++ "&repo=" ++ urlquote repoName
    ++ "&number=" ++ toString revision
    ++ "&numbering_type=COMMIT_POSITION"
    ++ "&numbering_identifier=" ++ urlquote "refs/heads/master"

/-- Modelled from the spec: `sha_from_revision` fetches the numbering
URL and returns the `git_sha` field of the parsed JSON body.
`fetchJson` maps a URL to the parsed JSON object of its response body,
as an association list. -/
def sha_from_revision (fetchJson : String → List (String × String))
    (revision : Nat) (repoName : String) : Option String :=
  (fetchJson (build_revision_to_sha_url revision repoName)).lookup "git_sha"

/-! ## Concrete inputs used by the witnesses -/

/-- A concrete crash record: reproduction arguments, testcase path and
environment mapping. -/
def tcC3 : Testcase :=
  { reproduction_args := "--random-seed=123"
    testcase_path := "/cf/testcase.js"
    environment := [("ASAN_OPTIONS", "handle_segv=1")] }

/-- A concrete ambient process environment. -/
def ambC3 : String → Option String :=
  fun k => if k = "PATH" then some "/usr/bin" else none

/-- A concrete reproduction process that crashes (exit status 1). -/
def procC3 : ProcessBehaviour :=
  { exitCode := 1, output := "AddressSanitizer: SEGV" }

/-- A concrete JSON oracle for the numbering service, mirroring
ShaFromRevisionTest's mocked response body. -/
def fetchJsonC9 : String → List (String × String) :=
  fun _ => [("id", "12345"), ("git_sha", "1a2s3d4f"), ("crash_type", "Bad Crash")]

/-! ## Theorems -/

/-- Closed form of `send_request`: the two loop iterations unrolled. -/
theorem send_request_eq (env : FetchEnv) :
    send_request env =
      if (firstResponse env).status = 200 then
        { requestHeaders := [firstHeader env]
          challengeCount := firstChallenges env
          result := .ok (firstResponse env)
          storedAfter := some (firstResponse env).authHeaderValue }
      else if (secondResponse env).status = 200 then
        { requestHeaders := [firstHeader env, secondHeader env]
          challengeCount := firstChallenges env +
            (if secondNeedsChallenge env then 1 else 0)
          result := .ok (secondResponse env)
          storedAfter := some (secondResponse env).authHeaderValue }
      else
        { requestHeaders := [firstHeader env, secondHeader env]
          challengeCount := firstChallenges env +
            (if secondNeedsChallenge env then 1 else 0)
          result := .error (.clusterfuzzAuthError (secondResponse env).body)
          storedAfter := env.storedHeader } := by
  rcases henv : env.storedHeader with _ | h <;>
    [skip; by_cases hemp : h = ""] <;>
    by_cases hfh : firstHeader env = "" <;>
      by_cases h200 : (firstResponse env).status = 200 <;>
        by_cases h401 : (firstResponse env).status = 401 <;>
          by_cases hs200 : (secondResponse env).status = 200 <;>
            simp_all [send_request, sendRequestStep, sendRequestBody,
              needsNewHeader, tokenFalsy, firstResponse, firstHeader,
              firstChallenges, secondResponse, secondHeader,
              secondNeedsChallenge]

/-- C1: `send_request` issues at most 2 requests; a missing stored token
or a 401 first response triggers exactly one challenge cycle before the
next (or first) request; a 200 response ends the run with its
authorization header persisted and the response returned; if neither
round returns 200, the outcome is `ClusterfuzzAuthError` with the final
body, the stored token unchanged, and no third request. -/
theorem send_request_bounded_retry (env : FetchEnv) :
    (send_request env).requestHeaders.length ≤ 2 ∧
    (env.storedHeader = none → firstChallenges env = 1) ∧
    ((firstResponse env).status = 401 → secondNeedsChallenge env = true) ∧
    ((firstResponse env).status = 200 →
      (send_request env).requestHeaders = [firstHeader env] ∧
      (send_request env).challengeCount = firstChallenges env ∧
      (send_request env).result = .ok (firstResponse env) ∧
      (send_request env).storedAfter = some (firstResponse env).authHeaderValue) ∧
    ((firstResponse env).status ≠ 200 →
      (send_request env).requestHeaders = [firstHeader env, secondHeader env] ∧
      (send_request env).challengeCount = firstChallenges env +
        (if secondNeedsChallenge env then 1 else 0) ∧
      ((secondResponse env).status = 200 →
        (send_request env).result = .ok (secondResponse env) ∧
        (send_request env).storedAfter =
          some (secondResponse env).authHeaderValue) ∧
      ((secondResponse env).status ≠ 200 →
        (send_request env).result =
          .error (.clusterfuzzAuthError (secondResponse env).body) ∧
        (send_request env).storedAfter = env.storedHeader)) := by
  rw [send_request_eq]
  by_cases h200 : (firstResponse env).status = 200 <;>
    by_cases hs200 : (secondResponse env).status = 200 <;>
      simp_all [firstChallenges, secondNeedsChallenge] <;>
        cases env.storedHeader <;> simp_all [tokenFalsy]

/-- C1 witness: at the concrete environment `envC1` the first response is
401, one challenge runs and the second response's body is returned. -/
theorem send_request_bounded_retry_witness :
    (send_request envC1).requestHeaders.length ≤ 2 ∧
    (send_request envC1).result = .ok (secondResponse envC1) ∧
    (send_request envC1).challengeCount = 1 := by
  have h := send_request_bounded_retry envC1
  have h5 := h.2.2.2.2 (by decide)
  refine ⟨h.1, (h5.2.2.1 (by decide)).1, ?_⟩
  rw [h5.2.1]
  decide

/-- C2: checkout by commit is idempotent and confirmation-gated: exactly
one read-only inspection command always runs; when the current commit
equals the target there is no prompt and no mutating command; when it
differs there is exactly one prompt and, only on acceptance, exactly one
fetch-and-checkout command runs; declining ends the process rather than
silently skipping the checkout. -/
theorem checkout_source_by_sha_gated (currentSha gitSha sourceDir : String)
    (confirmAnswer : Bool) :
    (checkout_source_by_sha currentSha gitSha sourceDir
        confirmAnswer).readCommands = [("git rev-parse HEAD", sourceDir)] ∧
    (currentSha = gitSha →
      (checkout_source_by_sha currentSha gitSha sourceDir
          confirmAnswer).prompts = 0 ∧
      (checkout_source_by_sha currentSha gitSha sourceDir
          confirmAnswer).mutatingCommands = [] ∧
      (checkout_source_by_sha currentSha gitSha sourceDir
          confirmAnswer).outcome = .completed) ∧
    (currentSha ≠ gitSha →
      (checkout_source_by_sha currentSha gitSha sourceDir
          confirmAnswer).prompts = 1 ∧
      (confirmAnswer = true →
        (checkout_source_by_sha currentSha gitSha sourceDir
            confirmAnswer).mutatingCommands =
          [("git fetch && git checkout " ++ gitSha, sourceDir)] ∧
        (checkout_source_by_sha currentSha gitSha sourceDir
            confirmAnswer).outcome = .completed) ∧
      (confirmAnswer = false →
        (checkout_source_by_sha currentSha gitSha sourceDir
            confirmAnswer).mutatingCommands = [] ∧
        (checkout_source_by_sha currentSha gitSha sourceDir
            confirmAnswer).outcome = .exited)) := by
  by_cases h : currentSha = gitSha <;> cases confirmAnswer <;>
    simp_all [checkout_source_by_sha, check_confirm]

/-- C2 witness: with the tree at "not_the_same", target "1a2s3d4f" and
an accepting user, exactly one prompt and one fetch-and-checkout
command. -/
theorem checkout_source_by_sha_gated_witness :
    (checkout_source_by_sha "not_the_same" "1a2s3d4f" "/chrome/src"
        true).prompts = 1 ∧
    (checkout_source_by_sha "not_the_same" "1a2s3d4f" "/chrome/src"
        true).mutatingCommands =
      [("git fetch && git checkout 1a2s3d4f", "/chrome/src")] := by
  have h := checkout_source_by_sha_gated "not_the_same" "1a2s3d4f"
    "/chrome/src" true
  have h3 := h.2.2 (by decide)
  exact ⟨h3.1, (h3.2.1 rfl).1⟩

/-- C10: `confirm` defaults to yes: with the default default an empty
input returns `True` and input "n" returns `False`, each after one
prompt; with `default=None` any input other than "y"/"n" re-prompts,
and the loop produces an answer exactly when a "y" or "n" eventually
appears in the input stream. -/
theorem confirm_defaults_and_reprompt :
    (∀ rest : List String, confirm ("" :: rest) = some (true, 1)) ∧
    (∀ rest : List String, confirm ("n" :: rest) = some (false, 1)) ∧
    (∀ (a : String) (rest : List String), a ≠ "y" → a ≠ "n" →
      confirmLoop none (a :: rest) =
        (confirmLoop none rest).map (fun p => (p.1, p.2 + 1))) ∧
    (∀ inputs : List String,
      (confirmLoop none inputs).isSome ↔ ∃ a ∈ inputs, a = "y" ∨ a = "n") := by
  refine ⟨fun rest => by simp [confirm, confirmLoop],
          fun rest => by simp [confirm, confirmLoop],
          fun a rest ha hn => by simp [confirmLoop, ha, hn],
          fun inputs => ?_⟩
  induction inputs with
  | nil => simp [confirmLoop]
  | cons a rest ih =>
    by_cases hy : a = "y" <;> by_cases hn : a = "n" <;>
      simp_all [confirmLoop]

/-- C10 witness: a bare Enter answers yes; "n" answers no; with no
default the junk inputs are re-prompted until the "n". -/
theorem confirm_defaults_and_reprompt_witness :
    confirm [""] = some (true, 1) ∧
    confirm ["n"] = some (false, 1) ∧
    confirmLoop none ["maybe", "", "n"] = some (false, 3) := by
  have h := confirm_defaults_and_reprompt
  refine ⟨h.1 [], h.2.1 [], ?_⟩
  rw [h.2.2.1 "maybe" ["", "n"] (by decide) (by decide)]
  rw [h.2.2.1 "" ["n"] (by decide) (by decide)]
  decide

/-- C3: the reproduction runner builds the command
`<binaryPath> <reproductionArgs> <testcasePath>`, executes it with the
binary's containing directory as working directory and the process
environment extended by the crash record's mapping, and returns the
exit status and output unconditionally — a non-zero exit status is the
reported crash signal, never a `sys.exit` of the pipeline. -/
theorem reproduce_crash_spec (binary_path : String) (tc : Testcase)
    (ambientEnv : String → Option String) (proc : ProcessBehaviour) :
    (reproduce_crash binary_path tc ambientEnv proc).1.command =
      binary_path ++ " " ++ tc.reproduction_args ++ " " ++ tc.testcase_path ∧
    (reproduce_crash binary_path tc ambientEnv proc).1.cwd =
      dirname binary_path ∧
    (∀ k, (reproduce_crash binary_path tc ambientEnv proc).1.env k =
      (tc.environment.lookup k).orElse (fun _ => ambientEnv k)) ∧
    (reproduce_crash binary_path tc ambientEnv proc).2 =
      .returned proc.exitCode proc.output := by
  refine ⟨rfl, rfl, fun k => rfl, ?_⟩
  simp [reproduce_crash, execute]

/-- C3 witness: a crashing binary (exit status 1) has its command, cwd
and environment assembled as specified and its non-zero status returned,
not escalated. -/
theorem reproduce_crash_spec_witness :
    (reproduce_crash "/cf/builds/1234_build/d8" tcC3 ambC3 procC3).1.command =
      "/cf/builds/1234_build/d8 --random-seed=123 /cf/testcase.js" ∧
    (reproduce_crash "/cf/builds/1234_build/d8" tcC3 ambC3 procC3).1.cwd =
      "/cf/builds/1234_build" ∧
    (reproduce_crash "/cf/builds/1234_build/d8" tcC3 ambC3 procC3).1.env
      "ASAN_OPTIONS" = some "handle_segv=1" ∧
    (reproduce_crash "/cf/builds/1234_build/d8" tcC3 ambC3 procC3).2 =
      .returned 1 "AddressSanitizer: SEGV" := by
  have h := reproduce_crash_spec "/cf/builds/1234_build/d8" tcC3 ambC3 procC3
  exact ⟨h.1.trans (by decide), h.2.1.trans (by decide),
    (h.2.2.1 "ASAN_OPTIONS").trans (by decide), h.2.2.2.trans (by decide)⟩

/-- C4: build-config patching is a merge, not an overwrite: the
project-generation command runs before the merged file is written, every
pre-existing pair whose key is not `goma_dir` is preserved in the
written pairs, and `goma_dir` is present bound to the current
environment's value. -/
theorem setup_gn_args_merge (existing : List (String × String))
    (gomaDir buildDirectory chromeSource : String) :
    setup_gn_args existing gomaDir buildDirectory chromeSource =
      [.exec ("gn gen " ++ buildDirectory) chromeSource,
       .writeConfig (buildDirectory ++ "/args.gn")
         (mergedGnArgs existing gomaDir)] ∧
    (∀ kv ∈ existing, kv.1 ≠ "goma_dir" →
      kv ∈ mergedGnArgs existing gomaDir) ∧
    ("goma_dir", gomaDir) ∈ mergedGnArgs existing gomaDir := by
  refine ⟨rfl, ?_, by simp [mergedGnArgs]⟩
  intro kv hkv hne
  simp only [mergedGnArgs, List.mem_append, List.mem_filter]
  exact Or.inl ⟨hkv, by simpa using hne⟩

/-- C4 witness: an existing config with an unrelated key `foo` and a
stale `goma_dir` is merged so that `foo = bar` survives and `goma_dir`
carries the current value. -/
theorem setup_gn_args_merge_witness :
    ("foo", "bar") ∈ mergedGnArgs [("foo", "bar"),
      ("goma_dir", "/not/correct/dir")] "/goma/dir" ∧
    ("goma_dir", "/goma/dir") ∈ mergedGnArgs [("foo", "bar"),
      ("goma_dir", "/not/correct/dir")] "/goma/dir" := by
  have h := setup_gn_args_merge [("foo", "bar"), ("goma_dir", "/not/correct/dir")]
    "/goma/dir" "/cf/test_dir" "/chrome/source/dir"
  exact ⟨h.2.1 ("foo", "bar") (by decide) (by decide), h.2.2⟩

/-- C5 counterexample: the claim ties the download short-circuit to the
binary file existing at its well-known relative path, but the code
short-circuits on the BuildDirectory existing: with the directory
present and the binary absent, no download operation runs even though
the claim's readiness is false. -/
theorem download_build_data_readiness_counterexample :
    ¬ (∀ (st : DlState) (url stagingDir buildsDir buildDir : String),
        readyPerClaim st = false →
        (download_build_data st url stagingDir buildsDir buildDir).1 ≠ []) := by
  intro h
  exact h { buildDirExists := true, binaryExists := false }
    "https://storage.cloud.google.com/abc.zip" "/cf" "/cf/builds"
    "/cf/builds/1234_build" rfl rfl

/-- C5 (amended): `download_build_data` short-circuits exactly when the
BuildDirectory exists, returning the known path with no operation at
all; otherwise it copies the translated `gs://` URL into the staging
area, extracts the archive named by the URL's tail segment, renames the
single top-level extracted directory to the BuildDirectory, and deletes
the staged archive. -/
theorem download_build_data_spec (st : DlState)
    (buildUrl stagingDir buildsDir buildDir : String) :
    (st.buildDirExists = true →
      download_build_data st buildUrl stagingDir buildsDir buildDir =
        ([], buildDir)) ∧
    (st.buildDirExists = false →
      download_build_data st buildUrl stagingDir buildsDir buildDir =
        ([.exec ("gsutil cp " ++ gsutilUrl buildUrl ++ " .") stagingDir,
          .extractZip (stagingDir ++ "/" ++ urlTail (gsutilUrl buildUrl))
            buildsDir,
          .renameDir
            (buildsDir ++ "/" ++ splitextRoot (urlTail (gsutilUrl buildUrl)))
            buildDir,
          .removeFile (stagingDir ++ "/" ++ urlTail (gsutilUrl buildUrl))],
         buildDir)) := by
  cases hst : st.buildDirExists <;>
    simp [download_build_data, hst]

/-- C5 witness: with the BuildDirectory absent, the test's storage URL
is translated to `gs://abc.zip`, staged as `abc.zip`, extracted, the
top-level `abc` directory renamed to the BuildDirectory, and the staged
archive removed. -/
theorem download_build_data_spec_witness :
    download_build_data { buildDirExists := false, binaryExists := false }
        "https://storage.cloud.google.com/abc.zip" "/cf" "/cf/builds"
        "/cf/builds/1234_build" =
      ([.exec "gsutil cp gs://abc.zip ." "/cf",
        .extractZip "/cf/abc.zip" "/cf/builds",
        .renameDir "/cf/builds/abc" "/cf/builds/1234_build",
        .removeFile "/cf/abc.zip"],
       "/cf/builds/1234_build") := by
  have h := download_build_data_spec
    { buildDirExists := false, binaryExists := false }
    "https://storage.cloud.google.com/abc.zip" "/cf" "/cf/builds"
    "/cf/builds/1234_build"
  exact (h.2 rfl).trans (by decide)

/-- C6: loading the stored credential fails with
PermissionsTooPermissiveError — never returning a token — whenever any
group or other permission bit of the backing file is set; a missing file
loads as absent; an owner-only file loads as its stored token. -/
theorem get_stored_auth_header_spec (f : CredFile) :
    get_stored_auth_header none = .ok none ∧
    (groupOtherBits f.mode ≠ 0 →
      get_stored_auth_header (some f) =
        .error (.permissionsTooPermissiveError
          "File permissions too permissive to open")) ∧
    (groupOtherBits f.mode = 0 →
      get_stored_auth_header (some f) = .ok (some f.content)) := by
  refine ⟨rfl, ?_, ?_⟩ <;> intro h <;> simp [get_stored_auth_header, h]

/-- C6 witness: a file with the group-write bit (mode 0o020) fails the
permission check; an owner-only 0o600 file loads its token. -/
theorem get_stored_auth_header_spec_witness :
    get_stored_auth_header (some { mode := 0o020, content := "Bearer 1234" }) =
      .error (.permissionsTooPermissiveError
        "File permissions too permissive to open") ∧
    get_stored_auth_header (some { mode := 0o600, content := "Bearer 1234" }) =
      .ok (some "Bearer 1234") := by
  refine ⟨?_, ?_⟩
  · exact (get_stored_auth_header_spec
      { mode := 0o020, content := "Bearer 1234" }).2.1 (by decide)
  · exact (get_stored_auth_header_spec
      { mode := 0o600, content := "Bearer 1234" }).2.2 (by decide)

/-- C7: for every token and every prior state of the credential file,
`store_auth_header` followed by `get_stored_auth_header` returns exactly
that token, the file's mode afterwards is owner-read/write-only (0600),
and the parent directory exists afterwards. -/
theorem store_then_load_roundtrip (st : CredState) (token : String) :
    (store_auth_header st token).dirExists = true ∧
    (store_auth_header st token).file =
      some { mode := 0o600, content := token } ∧
    get_stored_auth_header (store_auth_header st token).file =
      .ok (some token) := by
  refine ⟨rfl, rfl, ?_⟩
  simp [store_auth_header, get_stored_auth_header, groupOtherBits]

/-- C8: `build_target` issues the dependency-hook, project-generation
and compile steps in that order as three separate commands, each with
the source tree as working directory, the compile step carrying job
parallelism exactly 10× the processor count. -/
theorem build_target_commands (cpuCount : Nat)
    (buildDirectory chromeSource : String) :
    build_target cpuCount buildDirectory chromeSource =
      [("GYP_DEFINES=asan=1 gclient runhooks", chromeSource),
       ("GYP_DEFINES=asan=1 gypfiles/gyp_v8", chromeSource),
       ("ninja -C " ++ buildDirectory ++ " -j " ++ toString (10 * cpuCount)
          ++ " d8", chromeSource)] ∧
    (build_target cpuCount buildDirectory chromeSource).length = 3 ∧
    (∀ c ∈ build_target cpuCount buildDirectory chromeSource,
      c.2 = chromeSource) := by
  refine ⟨by simp [build_target, jobCount], rfl, ?_⟩
  intro c hc
  simp only [build_target, List.mem_cons, List.not_mem_nil, or_false] at hc
  rcases hc with h | h | h <;> simp [h]

/-- C8 witness: with 12 processors the compile step carries `-j 120`,
after the hook and generation steps, all in the source tree. -/
theorem build_target_commands_witness :
    build_target 12 "/chrome/source/out/clusterfuzz_54321" "/chrome/source" =
      [("GYP_DEFINES=asan=1 gclient runhooks", "/chrome/source"),
       ("GYP_DEFINES=asan=1 gypfiles/gyp_v8", "/chrome/source"),
       ("ninja -C /chrome/source/out/clusterfuzz_54321 -j 120 d8",
        "/chrome/source")] ∧
    (("GYP_DEFINES=asan=1 gclient runhooks", "/chrome/source") :
        String × String).2 = "/chrome/source" := by
  have h := build_target_commands 12 "/chrome/source/out/clusterfuzz_54321"
    "/chrome/source"
  refine ⟨h.1.trans (by decide), ?_⟩
  exact h.2.2 ("GYP_DEFINES=asan=1 gclient runhooks", "/chrome/source")
    (by rw [h.1]; decide)

/-- C9: revision resolution queries the fixed numbering-service endpoint
with query parameters project=chromium, repo=<repoPath> (URL-quoted),
number=<revision>, numbering_type=COMMIT_POSITION and
numbering_identifier=refs/heads/master (URL-quoted), and returns exactly
the `git_sha` field of the JSON response body. -/
theorem sha_from_revision_spec (fetchJson : String → List (String × String))
    (revision : Nat) (repoName : String) :
    sha_from_revision fetchJson revision repoName =
      (fetchJson (build_revision_to_sha_url revision repoName)).lookup
        "git_sha" ∧
    build_revision_to_sha_url revision repoName =
      "https://cr-rev.appspot.com/_ah/api/crrev/v1/get_numbering?project=chromium&repo="
        ++ (urlquote repoName
        ++ ("&number="
        ++ (toString revision
        ++ "&numbering_type=COMMIT_POSITION&numbering_identifier=refs%2Fheads%2Fmaster"))) := by
  refine ⟨rfl, ?_⟩
  have hq : urlquote "refs/heads/master" = "refs%2Fheads%2Fmaster" := rfl
  simp [build_revision_to_sha_url, hq, String.append_assoc]

/-- C9 witness: revision 12345 of repo v8/v8 yields exactly the URL the
test pins (with %2F-quoted values), and the mocked JSON body's
`git_sha` field "1a2s3d4f" is returned. -/
theorem sha_from_revision_spec_witness :
    build_revision_to_sha_url 12345 "v8/v8" =
      "https://cr-rev.appspot.com/_ah/api/crrev/v1/get_numbering?project=chromium&repo=v8%2Fv8&number=12345&numbering_type=COMMIT_POSITION&numbering_identifier=refs%2Fheads%2Fmaster" ∧
    sha_from_revision fetchJsonC9 123456 "v8/v8" = some "1a2s3d4f" := by
  have h := sha_from_revision_spec fetchJsonC9 12345 "v8/v8"
  have h2 := sha_from_revision_spec fetchJsonC9 123456 "v8/v8"
  exact ⟨h.2.trans (by decide), h2.1.trans (by decide)⟩

end Clusterfuzz
